import Mathlib

/-!
Verification of the rendering-device layer of the code-vr engine
(src/codevr/src/engine/renderer/mod.rs), as a shallow embedding.

External collaborators (the Vulkan driver, the window system) are modelled as
oracle inputs: the result of a surface-capability query is a `Capabilities`
value, the reply of the driver to a swapchain-creation request is a
`SwapchainReply` (none when creation fails), and the image index returned by
acquire_next_image is a plain argument.  Every place where the source calls
unwrap or expect is modelled by returning `none` from an `Option`.
-/

namespace CodeVR

/-- The window section of the configuration: config.window.resolution,
a [u32; 2] array modelled as a pair of naturals (only compared, never
arithmetically combined, so overflow cannot occur). -/
structure WindowConfig where
  resolution : Nat × Nat
deriving Repr, DecidableEq

/-- The graphics section of the configuration: config.graphics.vsync. -/
structure GraphicsConfig where
  vsync : Bool
deriving Repr, DecidableEq

/-- The parts of engine::config::Config read by the renderer. -/
structure Config where
  window : WindowConfig
  graphics : GraphicsConfig
deriving Repr, DecidableEq

/-- vulkano::swapchain::PresentMode. -/
inductive PresentMode where
  | Immediate
  | Mailbox
  | Fifo
  | Relaxed
deriving Repr, DecidableEq

/-- vulkano composite-alpha modes. -/
inductive CompositeAlpha where
  | Opaque
  | PreMultiplied
  | PostMultiplied
  | Inherit
deriving Repr, DecidableEq

/-- Result of window.surface().get_capabilities(physical_device)
(renderer/mod.rs:217-220).  Formats are (Format, ColorSpace) pairs with the
enum values abstracted as naturals; supported present modes are kept as an
ordered list, iteration order being the order of the list.  The source never
reads max_image_extent; it is carried here so that theorems can quantify
over it. -/
structure Capabilities where
  min_image_count : Nat
  min_image_extent : Nat × Nat
  max_image_extent : Nat × Nat
  current_extent : Option (Nat × Nat)
  present_modes : List PresentMode
  supported_composite_alpha : List CompositeAlpha
  supported_formats : List (Nat × Nat)
  supported_usage_flags : Nat
deriving Repr, DecidableEq

/-- The argument record a call to Swapchain::new receives
(renderer/mod.rs:254-267).  transform 0 stands for
SurfaceTransform::Identity. -/
structure SwapchainRequest where
  num_images : Nat
  format : Nat
  dimensions : Nat × Nat
  layers : Nat
  usage : Nat
  transform : Nat
  alpha : CompositeAlpha
  present : PresentMode
  clipped : Bool
  old : Option Nat
deriving Repr, DecidableEq

/-- The dimensions computation of create_swapchain (renderer/mod.rs:225-240):
when either component of the configured resolution is at most 240, take the
capability current_extent (800x600 when undefined) and replace it by
min_image_extent as a whole when either component falls below it; otherwise
take the configured resolution verbatim. -/
def swapchainDimensions (caps : Capabilities) (config : Config) : Nat × Nat :=
  if config.window.resolution.1 ≤ 240 ∨ config.window.resolution.2 ≤ 240 then
    let min := caps.min_image_extent
    let extent := caps.current_extent.getD (800, 600)
    if extent.1 < min.1 ∨ extent.2 < min.2 then min else extent
  else
    config.window.resolution

/-- The present-mode choice of create_swapchain (renderer/mod.rs:243-248):
Mailbox when vsync is configured and Mailbox is supported, otherwise the
first supported mode; `none` models the unwrap panicking on an empty set. -/
def swapchainPresentMode (caps : Capabilities) (config : Config) :
    Option PresentMode :=
  if config.graphics.vsync = true ∧ PresentMode.Mailbox ∈ caps.present_modes then
    some PresentMode.Mailbox
  else
    caps.present_modes.head?

/-- Embeds create_swapchain (renderer/mod.rs:209-268) up to the point where
Swapchain::new is invoked: it computes the argument record handed to the
driver.  `none` models the unwraps on empty present-mode, composite-alpha or
format sets; the driver reply itself is an oracle (`SwapchainReply`). -/
def create_swapchain (caps : Capabilities) (old : Option Nat) (config : Config) :
    Option SwapchainRequest :=
  let dimensions := swapchainDimensions caps config
  match swapchainPresentMode caps config, caps.supported_composite_alpha.head?,
        caps.supported_formats.head? with
  | some present, some alpha, some fmt =>
      some { num_images := caps.min_image_count
             format := fmt.1
             dimensions := dimensions
             layers := 1
             usage := caps.supported_usage_flags
             transform := 0
             alpha := alpha
             present := present
             clipped := true
             old := old }
  | _, _, _ => none

/-- A swapchain image: dimensions() yields [width, height], format() the
color format. -/
structure Image where
  width : Nat
  height : Nat
  format : Nat
deriving Repr, DecidableEq

/-- A framebuffer as built in Renderer::new (mod.rs:117-130) and
Renderer::resize (mod.rs:164-177): extent [width, height, 1], one color
attachment (the swapchain image) and the shared depth buffer (recorded by
its dimensions). -/
structure Framebuffer where
  extent : Nat × Nat × Nat
  color : Image
  depth : Nat × Nat
deriving Repr, DecidableEq

/-- A recorded primary command buffer (mod.rs:181-194): one per framebuffer,
clearing it and issuing no draws; identified by the framebuffer it targets. -/
structure CommandBuffer where
  framebuffer : Framebuffer
deriving Repr, DecidableEq

/-- An in-flight submission handle (mod.rs:200-201): the submitted command
buffer and the queue it was submitted on. -/
structure Submission where
  command_buffer : CommandBuffer
  queue : Nat
deriving Repr, DecidableEq

/-- The driver's reply to Swapchain::new: the new swapchain handle and its
image set. -/
structure SwapchainReply where
  swapchain : Nat
  images : List Image
deriving Repr, DecidableEq

/-- The Renderer struct (mod.rs:45-58).  Opaque Vulkan handles (window,
instance, device, swapchain, queue) are naturals; render_pass is recorded by
its color-attachment format; depth_buffer by its dimensions. -/
structure Renderer where
  config : Config
  window : Nat
  «instance» : Nat
  physical_device : Nat
  device : Nat
  swapchain : Nat
  images : List Image
  depth_buffer : Nat × Nat
  render_pass : Nat
  framebuffers : List Framebuffer
  submissions : List Submission
  queue : Nat
deriving Repr, DecidableEq

/-- A queue family as seen in Renderer::new (mod.rs:78-81):
supports_graphics() and the surface's is_supported(q) answer, `none` standing
for the query returning Err (unwrap_or(false) maps it to false). -/
structure QueueFamily where
  supports_graphics : Bool
  is_supported : Option Bool
deriving Repr, DecidableEq

/-- The predicate of the queue-family search (mod.rs:80):
q.supports_graphics() && window.surface().is_supported(q).unwrap_or(false). -/
def queueFamilyOk (q : QueueFamily) : Bool :=
  q.supports_graphics && q.is_supported.getD false

/-- A physical device as enumerated: physical.index() and its queue
families in order. -/
structure PhysicalDeviceInfo where
  index : Nat
  queue_families : List QueueFamily
deriving Repr, DecidableEq

/-- The queue-family selection of Renderer::new (mod.rs:78-81):
first family satisfying `queueFamilyOk`; `none` models the expect panic. -/
def selectQueueFamily (physical : PhysicalDeviceInfo) : Option QueueFamily :=
  physical.queue_families.find? queueFamilyOk

/-- The environment of one Renderer::new call: the enumerated physical
devices in order, the handles the platform hands back, the surface
capabilities at this moment, and the driver's swapchain reply. -/
structure NewEnv where
  devices : List PhysicalDeviceInfo
  instance_handle : Nat
  window_handle : Nat
  device_handle : Nat
  queue_handle : Nat
  caps : Capabilities
  reply : Option SwapchainReply
deriving Repr, DecidableEq

/-- Embeds Renderer::new (mod.rs:61-149): first enumerated physical device,
first graphics-and-presentable queue family, first swapchain, depth buffer
sized to images[0].dimensions(), render pass on images[0].format(), one
framebuffer per image, empty submissions list.  Returns the renderer and the
window handle; `none` wherever the source would panic. -/
def Renderer.new (env : NewEnv) (config : Config) : Option (Renderer × Nat) :=
  match env.devices.head? with
  | none => none
  | some physical =>
    match selectQueueFamily physical with
    | none => none
    | some _queue_family =>
      match create_swapchain env.caps none config with
      | none => none
      | some _req =>
        match env.reply with
        | none => none
        | some rep =>
          match rep.images.head? with
          | none => none
          | some img0 =>
            let depth_buffer := (img0.width, img0.height)
            some ({ config := config
                    window := env.window_handle
                    «instance» := env.instance_handle
                    physical_device := physical.index
                    device := env.device_handle
                    swapchain := rep.swapchain
                    images := rep.images
                    depth_buffer := depth_buffer
                    render_pass := img0.format
                    framebuffers := rep.images.map (fun image =>
                      { extent := (image.width, image.height, 1)
                        color := image
                        depth := depth_buffer })
                    submissions := []
                    queue := env.queue_handle },
                  env.window_handle)

/-- Embeds Renderer::resize (mod.rs:151-178).  `caps` is the capability
query result at this call and `reply` the driver's answer to Swapchain::new
(none when creation fails); the old swapchain is passed as the reuse hint.
The depth buffer is recreated at images[0].dimensions() and the framebuffer
vector is rebuilt from scratch; `none` wherever the source would panic. -/
def Renderer.resize (r : Renderer) (caps : Capabilities)
    (reply : Option SwapchainReply) : Option Renderer :=
  match create_swapchain caps (some r.swapchain) r.config with
  | none => none
  | some _req =>
    match reply with
    | none => none
    | some rep =>
      match rep.images.head? with
      | none => none
      | some img0 =>
        let depth_buffer := (img0.width, img0.height)
        some { r with
               swapchain := rep.swapchain
               images := rep.images
               depth_buffer := depth_buffer
               framebuffers := rep.images.map (fun image =>
                 { extent := (image.width, image.height, 1)
                   color := image
                   depth := depth_buffer }) }

/-- A queue-visible event of one render() call: the acquire (with the fixed
Duration::new(1, 0) timeout and the returned image index), the submission of
a command buffer on a queue, the presentation of an image index on a
queue. -/
inductive RenderEvent where
  | acquire (timeout : Nat × Nat) (image_num : Nat)
  | submit (cb : CommandBuffer) (queue : Nat)
  | present (image_num : Nat) (queue : Nat)
deriving Repr, DecidableEq

/-- True exactly on submission events. -/
def RenderEvent.isSubmitEvent : RenderEvent → Bool
  | RenderEvent.submit _ _ => true
  | _ => false

/-- Embeds Renderer::render (mod.rs:180-204).  `image_num` is the index
returned by acquire_next_image (an oracle).  One command buffer is recorded
per framebuffer; the one indexed by the acquired image is submitted and the
resulting handle pushed onto submissions; the image is then presented on the
same queue.  Returns the updated renderer together with the ordered trace of
queue-visible events; `none` models the panic on an out-of-range index. -/
def Renderer.render (r : Renderer) (image_num : Nat) :
    Option (Renderer × List RenderEvent) :=
  let command_buffers := r.framebuffers.map (fun framebuffer =>
    CommandBuffer.mk framebuffer)
  match command_buffers[image_num]? with
  | none => none
  | some cb =>
      some ({ r with submissions := r.submissions ++ [Submission.mk cb r.queue] },
            [RenderEvent.acquire (1, 0) image_num,
             RenderEvent.submit cb r.queue,
             RenderEvent.present image_num r.queue])

/-- N successive render() calls, the acquired image index of each supplied
by the oracle list; `none` as soon as one call panics. -/
def renderMany (r : Renderer) : List Nat → Option Renderer
  | [] => some r
  | i :: is =>
    match r.render i with
    | none => none
    | some (r', _) => renderMany r' is

/-- One renderer operation after construction, with its oracle inputs. -/
inductive Op where
  | opResize (caps : Capabilities) (reply : Option SwapchainReply)
  | opRender (image_num : Nat)
deriving Repr, DecidableEq

/-- Apply one operation. -/
def applyOp (r : Renderer) : Op → Option Renderer
  | Op.opResize caps reply => r.resize caps reply
  | Op.opRender i => (r.render i).map Prod.fst

/-- Apply a sequence of operations, stopping at the first panic. -/
def applyOps (r : Renderer) : List Op → Option Renderer
  | [] => some r
  | op :: ops =>
    match applyOp r op with
    | none => none
    | some r' => applyOps r' ops

/-- The depth-buffer invariant: the depth buffer has exactly the dimensions
of the first swapchain image. -/
def DepthInv (r : Renderer) : Prop :=
  ∃ img0, r.images.head? = some img0 ∧
    r.depth_buffer = (img0.width, img0.height)

/-! Concrete test fixtures used to instantiate the theorems. -/

/-- A typical desktop capability set: defined current extent, Fifo listed
before Mailbox. -/
def capsA : Capabilities :=
  { min_image_count := 2
    min_image_extent := (100, 100)
    max_image_extent := (4096, 4096)
    current_extent := some (1920, 1080)
    present_modes := [PresentMode.Fifo, PresentMode.Mailbox]
    supported_composite_alpha := [CompositeAlpha.Opaque]
    supported_formats := [(5, 0)]
    supported_usage_flags := 16 }

/-- A capability set with undefined current extent whose minimum extent
exceeds the 800x600 fallback in the first component only. -/
def capsB : Capabilities :=
  { min_image_count := 1
    min_image_extent := (1000, 100)
    max_image_extent := (4096, 4096)
    current_extent := none
    present_modes := [PresentMode.Fifo]
    supported_composite_alpha := [CompositeAlpha.Opaque]
    supported_formats := [(5, 0)]
    supported_usage_flags := 16 }

/-- Placeholder resolution, vsync on. -/
def cfgLow : Config := { window := { resolution := (0, 0) }, graphics := { vsync := true } }

/-- Placeholder resolution, vsync off. -/
def cfg00 : Config := { window := { resolution := (0, 0) }, graphics := { vsync := false } }

/-- Explicit resolution above the 240 threshold, vsync off. -/
def cfgHigh : Config :=
  { window := { resolution := (1280, 720) }, graphics := { vsync := false } }

/-- The swapchain request create_swapchain computes from capsA and cfgLow. -/
def reqLow : SwapchainRequest :=
  { num_images := 2, format := 5, dimensions := (1920, 1080), layers := 1
    usage := 16, transform := 0, alpha := CompositeAlpha.Opaque
    present := PresentMode.Mailbox, clipped := true, old := none }

/-- The swapchain request create_swapchain computes from capsA and cfgHigh. -/
def reqHigh : SwapchainRequest :=
  { num_images := 2, format := 5, dimensions := (1280, 720), layers := 1
    usage := 16, transform := 0, alpha := CompositeAlpha.Opaque
    present := PresentMode.Fifo, clipped := true, old := none }

/-- The swapchain request create_swapchain computes from capsB and cfg00. -/
def reqB : SwapchainRequest :=
  { num_images := 1, format := 5, dimensions := (1000, 100), layers := 1
    usage := 16, transform := 0, alpha := CompositeAlpha.Opaque
    present := PresentMode.Fifo, clipped := true, old := none }

/-- A 1920x1080 swapchain image of format 5. -/
def imgA : Image := { width := 1920, height := 1080, format := 5 }

/-- The framebuffer built for imgA with the matching depth buffer. -/
def fbA : Framebuffer :=
  { extent := (1920, 1080, 1), color := imgA, depth := (1920, 1080) }

/-- The command buffer recorded for fbA. -/
def cbA : CommandBuffer := { framebuffer := fbA }

/-- The submission of cbA on queue 4. -/
def subA : Submission := { command_buffer := cbA, queue := 4 }

/-- A physical device whose first queue family lacks graphics support and
whose second is graphical and presentable. -/
def devA : PhysicalDeviceInfo :=
  { index := 0
    queue_families := [{ supports_graphics := false, is_supported := some true },
                       { supports_graphics := true, is_supported := some true }] }

/-- The graphical, presentable queue family of devA. -/
def qfA : QueueFamily := { supports_graphics := true, is_supported := some true }

/-- The driver reply at construction: swapchain handle 7 with two images. -/
def replyNew : SwapchainReply := { swapchain := 7, images := [imgA, imgA] }

/-- The driver reply at resize: swapchain handle 8 with one image. -/
def replyRz : SwapchainReply := { swapchain := 8, images := [imgA] }

/-- A complete construction environment. -/
def env0 : NewEnv :=
  { devices := [devA], instance_handle := 2, window_handle := 1
    device_handle := 3, queue_handle := 4, caps := capsA, reply := some replyNew }

/-- The renderer Renderer.new builds from env0 and cfgLow. -/
def rendA : Renderer :=
  { config := cfgLow, window := 1, «instance» := 2, physical_device := 0
    device := 3, swapchain := 7, images := [imgA, imgA]
    depth_buffer := (1920, 1080), render_pass := 5
    framebuffers := [fbA, fbA], submissions := [], queue := 4 }

/-- rendA after one render() with acquired index 0. -/
def rendR : Renderer := { rendA with submissions := [subA] }

/-- The event trace of that render() call. -/
def trR : List RenderEvent :=
  [RenderEvent.acquire (1, 0) 0, RenderEvent.submit cbA 4,
   RenderEvent.present 0 4]

/-- rendA after three render() calls with acquired index 0. -/
def rend3 : Renderer := { rendA with submissions := [subA, subA, subA] }

/-- rendA after a resize answered by replyRz. -/
def rendRz : Renderer :=
  { rendA with swapchain := 8, images := [imgA], framebuffers := [fbA] }

/-- A render followed by a resize. -/
def ops0 : List Op := [Op.opRender 0, Op.opResize capsA (some replyRz)]

/-- rendA after ops0: the render appended subA, the resize swapped the
swapchain. -/
def rendX : Renderer :=
  { rendA with swapchain := 8, images := [imgA], framebuffers := [fbA]
               submissions := [subA] }

/-- env0 with the driver refusing the swapchain request: a graphical,
presentable queue family exists, yet construction fails. -/
def envFail : NewEnv := { env0 with reply := none }

/-! Helper lemmas. -/

/-- A successful create_swapchain hands the computed dimensions and the
computed present mode to the driver. -/
lemma create_swapchain_some (caps : Capabilities) (old : Option Nat)
    (config : Config) (req : SwapchainRequest)
    (h : create_swapchain caps old config = some req) :
    req.dimensions = swapchainDimensions caps config ∧
    swapchainPresentMode caps config = some req.present := by
  simp only [create_swapchain] at h
  split at h
  · rename_i present alpha fmt hp ha hf
    cases h
    exact ⟨rfl, hp⟩
  · exact Option.noConfusion h

/-- find? returns the first element satisfying the predicate. -/
lemma find?_first {α : Type} (p : α → Bool) (l : List α) :
    ∀ q, l.find? p = some q →
      p q = true ∧ ∃ i : Nat, l[i]? = some q ∧
        ∀ (j : Nat) (q' : α), j < i → l[j]? = some q' → p q' = false := by
  induction l with
  | nil => intro q h; simp at h
  | cons a l ih =>
    intro q h
    cases hpa : p a with
    | true =>
      rw [List.find?_cons_of_pos _ hpa] at h
      cases h
      exact ⟨hpa, 0, by simp, fun j q' hj _ => absurd hj (Nat.not_lt_zero j)⟩
    | false =>
      rw [List.find?_cons_of_neg _ (by simp [hpa])] at h
      obtain ⟨hq, i, hi, hfirst⟩ := ih q h
      refine ⟨hq, i + 1, by simpa using hi, ?_⟩
      intro j q' hj hj'
      cases j with
      | zero =>
        simp at hj'
        subst hj'
        exact hpa
      | succ j =>
        exact hfirst j q' (by omega) (by simpa using hj')

/-- The queue-family predicate holds exactly when the family supports
graphics and the surface confirmed presentability (an erroring query counts
as not presentable). -/
lemma queueFamilyOk_iff (q : QueueFamily) :
    queueFamilyOk q = true ↔
      (q.supports_graphics = true ∧ q.is_supported = some true) := by
  rcases q with ⟨g, s⟩
  cases g <;> rcases s with _ | b <;> simp [queueFamilyOk]

/-- A successful render call appends the submission of the command buffer
indexed by the acquired image and emits the acquire, submit, present
trace. -/
lemma render_eq (r : Renderer) (i : Nat) (r' : Renderer)
    (tr : List RenderEvent) (h : r.render i = some (r', tr)) :
    ∃ cb, (r.framebuffers.map CommandBuffer.mk)[i]? = some cb ∧
      r' = { r with submissions := r.submissions ++ [Submission.mk cb r.queue] } ∧
      tr = [RenderEvent.acquire (1, 0) i, RenderEvent.submit cb r.queue,
            RenderEvent.present i r.queue] := by
  simp only [Renderer.render] at h
  split at h
  · exact Option.noConfusion h
  · rename_i cb hcb
    obtain ⟨h1, h2⟩ := Prod.mk.inj (Option.some.inj h)
    exact ⟨cb, hcb, h1.symm, h2.symm⟩

/-- A successful resize call replaces the swapchain and images with the
driver's reply, recreates the depth buffer at the first image's dimensions
and rebuilds one framebuffer per image. -/
lemma resize_eq (r : Renderer) (caps : Capabilities)
    (reply : Option SwapchainReply) (r' : Renderer)
    (h : r.resize caps reply = some r') :
    ∃ rep img0, reply = some rep ∧ rep.images.head? = some img0 ∧
      create_swapchain caps (some r.swapchain) r.config ≠ none ∧
      r' = { r with
             swapchain := rep.swapchain
             images := rep.images
             depth_buffer := (img0.width, img0.height)
             framebuffers := rep.images.map (fun image =>
               { extent := (image.width, image.height, 1)
                 color := image
                 depth := (img0.width, img0.height) }) } := by
  simp only [Renderer.resize] at h
  split at h
  · exact Option.noConfusion h
  rename_i req hreq
  split at h
  · exact Option.noConfusion h
  rename_i rep
  split at h
  · exact Option.noConfusion h
  rename_i img0 himg
  exact ⟨rep, img0, rfl, himg, by simp [hreq], (Option.some.inj h).symm⟩

/-- A successful construction starts from the first enumerated device, a
found queue family, a successful swapchain request and a nonempty image
set, and records the depth buffer at the first image's dimensions with an
empty submissions list. -/
lemma new_eq (env : NewEnv) (config : Config) (r : Renderer) (w : Nat)
    (h : Renderer.new env config = some (r, w)) :
    ∃ d q rep img0,
      env.devices.head? = some d ∧
      selectQueueFamily d = some q ∧
      create_swapchain env.caps none config ≠ none ∧
      env.reply = some rep ∧
      rep.images.head? = some img0 ∧
      r.physical_device = d.index ∧
      r.images = rep.images ∧
      r.depth_buffer = (img0.width, img0.height) ∧
      r.submissions = [] ∧
      w = env.window_handle := by
  simp only [Renderer.new] at h
  split at h
  · exact Option.noConfusion h
  rename_i d hd
  split at h
  · exact Option.noConfusion h
  rename_i q hq
  split at h
  · exact Option.noConfusion h
  rename_i req hreq
  split at h
  · exact Option.noConfusion h
  rename_i rep hrep
  split at h
  · exact Option.noConfusion h
  rename_i img0 himg
  obtain ⟨h1, h2⟩ := Prod.mk.inj (Option.some.inj h)
  subst h1
  exact ⟨d, q, rep, img0, hd, hq, by simp [hreq], hrep, himg, rfl, rfl, rfl, rfl,
         h2.symm⟩

/-- Every single successful operation preserves the depth-buffer
invariant. -/
lemma applyOp_inv (r r1 : Renderer) (op : Op) (h : applyOp r op = some r1)
    (hr : DepthInv r) : DepthInv r1 := by
  cases op with
  | opResize caps reply =>
    simp only [applyOp] at h
    obtain ⟨rep, img0, hrep, himg, hcre, hr1⟩ := resize_eq r caps reply r1 h
    subst hr1
    exact ⟨img0, himg, rfl⟩
  | opRender i =>
    simp only [applyOp, Option.map_eq_some'] at h
    obtain ⟨⟨r2, tr⟩, hpair, hfst⟩ := h
    obtain ⟨cb, hcb, hr2, htr⟩ := render_eq r i r2 tr hpair
    subst hfst
    subst hr2
    exact hr

/-- Every successful operation sequence preserves the depth-buffer
invariant. -/
lemma applyOps_inv (ops : List Op) : ∀ r r' : Renderer, DepthInv r →
    applyOps r ops = some r' → DepthInv r' := by
  induction ops with
  | nil =>
    intro r r' hr h
    simp only [applyOps] at h
    cases h
    exact hr
  | cons op ops ih =>
    intro r r' hr h
    simp only [applyOps] at h
    split at h
    · exact Option.noConfusion h
    · rename_i r1 hop
      exact ih r1 r' (applyOp_inv r r1 op hop hr) h

/-- Successful render sequences extend the submissions list by exactly one
element per call. -/
lemma renderMany_append (idxs : List Nat) : ∀ r r' : Renderer,
    renderMany r idxs = some r' →
      ∃ t, r'.submissions = r.submissions ++ t ∧ t.length = idxs.length := by
  induction idxs with
  | nil =>
    intro r r' h
    simp only [renderMany] at h
    cases h
    exact ⟨[], by simp⟩
  | cons i is ih =>
    intro r r' h
    simp only [renderMany] at h
    split at h
    · exact Option.noConfusion h
    · rename_i r1 tr1 hpair
      obtain ⟨cb, hcb, hr1, htr⟩ := render_eq r i r1 tr1 hpair
      obtain ⟨t, ht, hl⟩ := ih r1 r' h
      subst hr1
      refine ⟨Submission.mk cb r.queue :: t, ?_, by simp [hl]⟩
      rw [ht]
      simp

/-! The claims. -/

/-- Claim C1, counterexample: with min_image_extent (1000, 100), undefined
current_extent and configured resolution (0, 0), create_swapchain resolves
the extent to (1000, 100) — min_image_extent taken as a whole — and not to
the component-wise maximum (1000, 600) of min_image_extent and
(800, 600). -/
theorem extent_fallback_not_componentwise_max :
    capsB.current_extent = none ∧
    cfg00.window.resolution.1 ≤ 240 ∧
    (create_swapchain capsB none cfg00).map SwapchainRequest.dimensions =
      some (1000, 100) ∧
    (1000, 100) ≠
      (max capsB.min_image_extent.1 800, max capsB.min_image_extent.2 600) := by
  decide

/-- Claim C1, amended: in create_swapchain, for every capability set where
current_extent is undefined and every configured resolution with either
component ≤ 240, the resolved extent is (800, 600) when both components of
(800, 600) reach min_extent, and otherwise is min_extent as a whole (both
components, not a component-wise maximum). -/
theorem extent_fallback_whole_min (caps : Capabilities) (old : Option Nat)
    (config : Config) (req : SwapchainRequest)
    (h : create_swapchain caps old config = some req)
    (hce : caps.current_extent = none)
    (hres : config.window.resolution.1 ≤ 240 ∨
            config.window.resolution.2 ≤ 240) :
    req.dimensions =
      if 800 < caps.min_image_extent.1 ∨ 600 < caps.min_image_extent.2 then
        caps.min_image_extent
      else (800, 600) := by
  obtain ⟨hd, _⟩ := create_swapchain_some caps old config req h
  rw [hd]
  simp only [swapchainDimensions, hce, Option.getD_none, if_pos hres]

/-- Witness for the amended claim C1 at capsB and cfg00. -/
theorem extent_fallback_whole_min_witness :
    reqB.dimensions =
      if 800 < capsB.min_image_extent.1 ∨ 600 < capsB.min_image_extent.2 then
        capsB.min_image_extent
      else (800, 600) :=
  extent_fallback_whole_min capsB none cfg00 reqB (by decide) (by decide)
    (Or.inl (by decide))

/-- Claim C2: in create_swapchain, for every configured resolution with both
components > 240, the resolved extent is the configured resolution verbatim,
whatever the capability set (in particular its min/max/current extents)
reports. -/
theorem configured_resolution_verbatim (caps : Capabilities)
    (old : Option Nat) (config : Config) (req : SwapchainRequest)
    (h : create_swapchain caps old config = some req)
    (h1 : 240 < config.window.resolution.1)
    (h2 : 240 < config.window.resolution.2) :
    req.dimensions = config.window.resolution := by
  obtain ⟨hd, _⟩ := create_swapchain_some caps old config req h
  rw [hd]
  simp only [swapchainDimensions]
  rw [if_neg (by omega)]

/-- Witness for claim C2 at capsA and cfgHigh. -/
theorem configured_resolution_verbatim_witness :
    reqHigh.dimensions = cfgHigh.window.resolution :=
  configured_resolution_verbatim capsA none cfgHigh reqHigh (by decide)
    (by decide) (by decide)

/-- Claim C3: in create_swapchain, if vsync is configured and Mailbox is
among the supported present modes, the chosen present mode is Mailbox; if
vsync is off or Mailbox is unsupported, it is the first supported present
mode. -/
theorem present_mode_choice (caps : Capabilities) (old : Option Nat)
    (config : Config) (req : SwapchainRequest)
    (h : create_swapchain caps old config = some req) :
    (config.graphics.vsync = true ∧
       PresentMode.Mailbox ∈ caps.present_modes →
         req.present = PresentMode.Mailbox) ∧
    (config.graphics.vsync = false ∨
       PresentMode.Mailbox ∉ caps.present_modes →
         caps.present_modes.head? = some req.present) := by
  obtain ⟨_, hp⟩ := create_swapchain_some caps old config req h
  simp only [swapchainPresentMode] at hp
  split at hp
  · rename_i hcond
    constructor
    · intro _
      exact (Option.some.inj hp).symm
    · intro hneg
      rcases hneg with hv | hm
      · rw [hcond.1] at hv
        exact Bool.noConfusion hv
      · exact absurd hcond.2 hm
  · rename_i hcond
    constructor
    · intro hpos
      exact absurd hpos hcond
    · intro _
      exact hp

/-- Witness for claim C3 at capsA and cfgLow: vsync on, Mailbox supported,
Mailbox chosen. -/
theorem present_mode_choice_witness :
    (cfgLow.graphics.vsync = true ∧
       PresentMode.Mailbox ∈ capsA.present_modes →
         reqLow.present = PresentMode.Mailbox) ∧
    (cfgLow.graphics.vsync = false ∨
       PresentMode.Mailbox ∉ capsA.present_modes →
         capsA.present_modes.head? = some reqLow.present) :=
  present_mode_choice capsA none cfgLow reqLow (by decide)

/-- Claim C6: in create_swapchain, when current_extent is defined and at
least min_extent in both components and both components of the configured
resolution are ≤ 240, the resolved extent is exactly current_extent. -/
theorem current_extent_taken (caps : Capabilities) (old : Option Nat)
    (config : Config) (req : SwapchainRequest) (ce : Nat × Nat)
    (h : create_swapchain caps old config = some req)
    (hce : caps.current_extent = some ce)
    (hW : caps.min_image_extent.1 ≤ ce.1)
    (hH : caps.min_image_extent.2 ≤ ce.2)
    (h1 : config.window.resolution.1 ≤ 240)
    (_h2 : config.window.resolution.2 ≤ 240) :
    req.dimensions = ce := by
  obtain ⟨hd, _⟩ := create_swapchain_some caps old config req h
  rw [hd]
  simp only [swapchainDimensions, hce, Option.getD_some, if_pos (Or.inl h1)]
  rw [if_neg (by omega)]

/-- Witness for claim C6 at capsA and cfgLow: current extent (1920, 1080)
is taken. -/
theorem current_extent_taken_witness : reqLow.dimensions = (1920, 1080) :=
  current_extent_taken capsA none cfgLow reqLow (1920, 1080) (by decide)
    (by decide) (by decide) (by decide) (by decide) (by decide)

/-- Claim C4: after every successful resize, the renderer has exactly one
framebuffer per swapchain image, and the framebuffer at index i was built
with extent (images[i].width, images[i].height, 1).  The statement holds
for a resize from any renderer state, hence after any sequence of repeated
resizes. -/
theorem resize_framebuffers_match (r : Renderer) (caps : Capabilities)
    (reply : Option SwapchainReply) (r' : Renderer)
    (h : r.resize caps reply = some r') :
    r'.framebuffers.length = r'.images.length ∧
    ∀ (i : Nat) (img : Image), r'.images[i]? = some img →
      ∃ fb, r'.framebuffers[i]? = some fb ∧
        fb.extent = (img.width, img.height, 1) := by
  obtain ⟨rep, img0, hrep, himg, hcre, hr'⟩ := resize_eq r caps reply r' h
  subst hr'
  constructor
  · simp
  · intro i img hi
    refine ⟨{ extent := (img.width, img.height, 1), color := img
              depth := (img0.width, img0.height) }, ?_, rfl⟩
    simp only [List.getElem?_map]
    simp only [show rep.images[i]? = some img from hi, Option.map_some']

/-- Witness for claim C4: rendA resized with reply replyRz. -/
theorem resize_framebuffers_match_witness :
    rendRz.framebuffers.length = rendRz.images.length ∧
    ∀ (i : Nat) (img : Image), rendRz.images[i]? = some img →
      ∃ fb, rendRz.framebuffers[i]? = some fb ∧
        fb.extent = (img.width, img.height, 1) :=
  resize_framebuffers_match rendA capsA (some replyRz) rendRz (by decide)

/-- Claim C5: any sequence of N successful render calls appends exactly N
entries to the submissions list and removes none, so the list grows without
bound. -/
theorem render_appends_each (r : Renderer) (idxs : List Nat) (r' : Renderer)
    (h : renderMany r idxs = some r') :
    r'.submissions.length = r.submissions.length + idxs.length ∧
    ∃ t, r'.submissions = r.submissions ++ t ∧ t.length = idxs.length := by
  obtain ⟨t, ht, hl⟩ := renderMany_append idxs r r' h
  exact ⟨by rw [ht, List.length_append, hl], t, ht, hl⟩

/-- Witness for claim C5: three renders on rendA append three
submissions. -/
theorem render_appends_each_witness :
    rend3.submissions.length = rendA.submissions.length +
      ([0, 0, 0] : List Nat).length ∧
    ∃ t, rend3.submissions = rendA.submissions ++ t ∧
      t.length = ([0, 0, 0] : List Nat).length :=
  render_appends_each rendA [0, 0, 0] rend3 (by decide)

/-- Claim C7: in every state reached from a successful construction by any
successful sequence of resize and render operations, the depth buffer's
extent equals the extent of images[0]; it is recreated on every swapchain
replacement and no operation changes the images without recreating it. -/
theorem depth_buffer_matches_first_image (env : NewEnv) (config : Config)
    (r0 : Renderer) (w : Nat) (ops : List Op) (r : Renderer)
    (hnew : Renderer.new env config = some (r0, w))
    (hops : applyOps r0 ops = some r) :
    ∃ img0, r.images.head? = some img0 ∧
      r.depth_buffer = (img0.width, img0.height) := by
  obtain ⟨d, q, rep, img0, _, _, _, _, himg, _, himages, hdepth, _, _⟩ :=
    new_eq env config r0 w hnew
  exact applyOps_inv ops r0 r ⟨img0, by rw [himages]; exact himg, hdepth⟩ hops

/-- Witness for claim C7: env0-construction followed by one render and one
resize. -/
theorem depth_buffer_matches_first_image_witness :
    ∃ img0, rendX.images.head? = some img0 ∧
      rendX.depth_buffer = (img0.width, img0.height) :=
  depth_buffer_matches_first_image env0 cfgLow rendA 1 ops0 rendX (by decide)
    (by decide)

/-- Claim C8, counterexample: in envFail the first enumerated device has a
queue family that supports graphics and is confirmed presentable, yet
Renderer.new fails (the driver refused the swapchain request, as the
expect at mod.rs:267 allows), so construction failure is not equivalent to
the absence of such a family. -/
theorem new_fails_despite_good_family :
    envFail.devices.head? = some devA ∧
    selectQueueFamily devA = some qfA ∧
    qfA.supports_graphics = true ∧ qfA.is_supported = some true ∧
    Renderer.new envFail cfgLow = none := by
  decide

/-- Claim C8, amended: the selected physical device is the first
enumerated; the selected queue family is the first that supports graphics
and whose presentability is confirmed by the surface (an erroring query
counts as not presentable); the queue-family search fails exactly when no
such family exists, and construction then fails — though construction may
also fail for other reasons, so its failure only follows from, and is not
equivalent to, the absence of such a family. -/
theorem device_queue_selection (env : NewEnv) (config : Config) :
    (∀ r w, Renderer.new env config = some (r, w) →
       ∃ d, env.devices.head? = some d ∧ r.physical_device = d.index ∧
         ∃ q, selectQueueFamily d = some q ∧
           q.supports_graphics = true ∧ q.is_supported = some true ∧
           ∃ i : Nat, d.queue_families[i]? = some q ∧
             ∀ (j : Nat) (q' : QueueFamily), j < i →
               d.queue_families[j]? = some q' →
                 ¬(q'.supports_graphics = true ∧
                   q'.is_supported = some true)) ∧
    (∀ d : PhysicalDeviceInfo,
       selectQueueFamily d = none ↔
         ∀ q ∈ d.queue_families,
           ¬(q.supports_graphics = true ∧ q.is_supported = some true)) ∧
    (∀ d, env.devices.head? = some d → selectQueueFamily d = none →
       Renderer.new env config = none) := by
  refine ⟨?_, ?_, ?_⟩
  · intro r w h
    obtain ⟨d, q, rep, img0, hd, hq, _, _, _, hidx, _, _, _, _⟩ :=
      new_eq env config r w h
    obtain ⟨hok, i, hi, hfirst⟩ := find?_first queueFamilyOk d.queue_families q hq
    obtain ⟨hg, hs⟩ := (queueFamilyOk_iff q).mp hok
    refine ⟨d, hd, hidx, q, hq, hg, hs, i, hi, ?_⟩
    intro j q' hj hj' hcontra
    have hq' := (queueFamilyOk_iff q').mpr hcontra
    rw [hfirst j q' hj hj'] at hq'
    exact Bool.noConfusion hq'
  · intro d
    unfold selectQueueFamily
    rw [List.find?_eq_none]
    constructor
    · intro hall q hq hcontra
      exact hall q hq ((queueFamilyOk_iff q).mpr hcontra)
    · intro hall q hq hcontra
      exact hall q hq ((queueFamilyOk_iff q).mp hcontra)
  · intro d hd hsel
    simp [Renderer.new, hd, hsel]

/-- Witness for claim C8: env0's first device is selected and its second
queue family is the first graphical presentable one. -/
theorem device_queue_selection_witness :
    ∃ d, env0.devices.head? = some d ∧ rendA.physical_device = d.index ∧
      ∃ q, selectQueueFamily d = some q ∧
        q.supports_graphics = true ∧ q.is_supported = some true ∧
        ∃ i : Nat, d.queue_families[i]? = some q ∧
          ∀ (j : Nat) (q' : QueueFamily), j < i →
            d.queue_families[j]? = some q' →
              ¬(q'.supports_graphics = true ∧ q'.is_supported = some true) :=
  (device_queue_selection env0 cfgLow).1 rendA 1 (by decide)

/-- Claim C9: within one successful render call, the acquisition of the
image index (with the fixed one-second timeout) precedes the single
submission, the submitted command buffer is the one indexed by the acquired
image index, and the submission precedes the presentation of the same index
on the same queue. -/
theorem render_acquire_submit_present (r : Renderer) (image_num : Nat)
    (r' : Renderer) (tr : List RenderEvent)
    (h : r.render image_num = some (r', tr)) :
    (tr.filter RenderEvent.isSubmitEvent).length = 1 ∧
    ∃ (a s p : Nat) (cb : CommandBuffer), a < s ∧ s < p ∧
      tr[a]? = some (RenderEvent.acquire (1, 0) image_num) ∧
      tr[s]? = some (RenderEvent.submit cb r.queue) ∧
      (r.framebuffers.map CommandBuffer.mk)[image_num]? = some cb ∧
      tr[p]? = some (RenderEvent.present image_num r.queue) := by
  obtain ⟨cb, hcb, hr', htr⟩ := render_eq r image_num r' tr h
  subst htr
  exact ⟨rfl, 0, 1, 2, cb, by omega, by omega, rfl, rfl, hcb, rfl⟩

/-- Witness for claim C9: one render on rendA with acquired index 0. -/
theorem render_acquire_submit_present_witness :
    (trR.filter RenderEvent.isSubmitEvent).length = 1 ∧
    ∃ (a s p : Nat) (cb : CommandBuffer), a < s ∧ s < p ∧
      trR[a]? = some (RenderEvent.acquire (1, 0) 0) ∧
      trR[s]? = some (RenderEvent.submit cb rendA.queue) ∧
      (rendA.framebuffers.map CommandBuffer.mk)[0]? = some cb ∧
      trR[p]? = some (RenderEvent.present 0 rendA.queue) :=
  render_acquire_submit_present rendA 0 rendR trR (by decide)

/-- Claim C10: a successful render call changes no renderer field except
submissions, to which it appends exactly one entry. -/
theorem render_mutates_only_submissions (r : Renderer) (image_num : Nat)
    (r' : Renderer) (tr : List RenderEvent)
    (h : r.render image_num = some (r', tr)) :
    r'.config = r.config ∧ r'.window = r.window ∧
    r'.«instance» = r.«instance» ∧
    r'.physical_device = r.physical_device ∧ r'.device = r.device ∧
    r'.swapchain = r.swapchain ∧ r'.images = r.images ∧
    r'.depth_buffer = r.depth_buffer ∧ r'.render_pass = r.render_pass ∧
    r'.framebuffers = r.framebuffers ∧ r'.queue = r.queue ∧
    ∃ s, r'.submissions = r.submissions ++ [s] := by
  obtain ⟨cb, hcb, hr', htr⟩ := render_eq r image_num r' tr h
  subst hr'
  exact ⟨rfl, rfl, rfl, rfl, rfl, rfl, rfl, rfl, rfl, rfl, rfl,
         Submission.mk cb r.queue, rfl⟩

/-- Witness for claim C10: one render on rendA with acquired index 0. -/
theorem render_mutates_only_submissions_witness :
    rendR.config = rendA.config ∧ rendR.window = rendA.window ∧
    rendR.«instance» = rendA.«instance» ∧
    rendR.physical_device = rendA.physical_device ∧
    rendR.device = rendA.device ∧
    rendR.swapchain = rendA.swapchain ∧ rendR.images = rendA.images ∧
    rendR.depth_buffer = rendA.depth_buffer ∧
    rendR.render_pass = rendA.render_pass ∧
    rendR.framebuffers = rendA.framebuffers ∧ rendR.queue = rendA.queue ∧
    ∃ s, rendR.submissions = rendA.submissions ++ [s] :=
  render_mutates_only_submissions rendA 0 rendR trR (by decide)

end CodeVR
